import Mathlib

/-!
Verification development for the Business Analyzer repository.

Strings are modelled as lists of characters (ASCII-level semantics for
case conversion and whitespace).  Python float score arithmetic is
modelled over the rationals.  Fallible construction (validation that can
raise) is modelled with Option.  Database state is modelled as explicit
record-of-lists state passed through each operation.
-/

set_option maxRecDepth 8000

namespace BizAnalyzer

/-! ## Python string primitives -/

/-- Whitespace characters recognised by Python str.strip and regex
whitespace classes, at ASCII level: space, tab, newline, carriage
return, form feed, vertical tab. -/
def isPySpace (c : Char) : Bool :=
  c = ' ' || c = '\t' || c = '\n' || c = '\x0d' || c = '\x0c' || c = '\x0b'

/-- Python str.strip: drop leading and trailing whitespace. -/
def pyStrip (s : List Char) : List Char :=
  ((s.dropWhile isPySpace).reverse.dropWhile isPySpace).reverse

/-- Python str.lower, ASCII level. -/
def pyLower (s : List Char) : List Char := s.map Char.toLower

/-- Python str.upper, ASCII level. -/
def pyUpper (s : List Char) : List Char := s.map Char.toUpper

/-- Auxiliary word counter: counts maximal runs of non-whitespace
characters; the flag records whether the scan is inside a word. -/
def wordCountAux : List Char → Bool → Nat
  | [], _ => 0
  | c :: cs, inWord =>
    if isPySpace c then wordCountAux cs false
    else (if inWord then 0 else 1) + wordCountAux cs true

/-- Number of words of a string, as computed by len(s.split()) in
Python: the number of maximal non-whitespace runs. -/
def wordCount (s : List Char) : Nat := wordCountAux s false

/-- Substring test: does pat occur contiguously inside hay?
Models the Python operator pat in hay. -/
def containsSub (hay pat : List Char) : Bool :=
  match hay with
  | [] => pat.isEmpty
  | _ :: t => pat.isPrefixOf hay || containsSub t pat

/-! ## Report validation model (models/validation_models.py) -/

/-- The four required section names of calculate_completeness. -/
def requiredSections : List (List Char) :=
  ["executive summary".toList, "company overview".toList,
   "financial analysis".toList, "key takeaways".toList]

/-- The candidate patterns tried for one required section, exactly the
patterns list of calculate_completeness: a markdown header with two or
one hash marks, bold text, and the section name with spaces removed. -/
def sectionPatterns (s : List Char) : List (List Char) :=
  ["## ".toList ++ s, "# ".toList ++ s,
   "**".toList ++ s ++ "**".toList, s.filter (fun c => c ≠ ' ')]

/-- A required section counts as found when any of its patterns occurs
in the lower-cased report content (the inner loop with break). -/
def sectionFound (contentLower : List Char) (s : List Char) : Bool :=
  (sectionPatterns s).any (fun p => containsSub contentLower p)

/-- The list found_sections built by calculate_completeness. -/
def foundSections (content : List Char) : List (List Char) :=
  requiredSections.filter (fun s => sectionFound (pyLower content) s)

/-- ReportValidationModel.calculate_completeness: 0.5 base, 0.125 per
found section, word-count bonus (skipped when the word count is zero,
matching Python truthiness), capped at 1. -/
def calculate_completeness (content : List Char) (word_count : ℤ) : ℚ :=
  let score : ℚ := 1/2 + ((foundSections content).length : ℚ) * (1/8)
  let score : ℚ :=
    if word_count ≠ 0 then
      if 800 ≤ word_count ∧ word_count ≤ 1200 then score + 1/10
      else if 500 ≤ word_count then score + 1/20
      else score
    else score
  min score 1

/-- Split a string at newline characters; a string with n newlines
yields n+1 segments.  Segment starts are exactly the positions where
the regex anchor for line starts matches in multiline mode. -/
def splitLines : List Char → List (List Char)
  | [] => [[]]
  | c :: cs =>
    if c = '\n' then [] :: splitLines cs
    else
      match splitLines cs with
      | l :: ls => (c :: l) :: ls
      | [] => [[c]]

/-- Count the lines satisfying a predicate; the Bool argument tells the
predicate whether the line is followed by a newline in the original
string (every segment but the last is). -/
def lineMatchCount (p : List Char → Bool → Bool) : List (List Char) → Nat
  | [] => 0
  | [l] => (if p l false then 1 else 0)
  | l :: ls => (if p l true then 1 else 0) + lineMatchCount p ls

/-- Does a line match the markdown-header pattern of
calculate_structure_score: one to three leading hash marks followed by
a whitespace character (the newline terminating the line counts as
whitespace for the regex)? -/
def headerMatch (line : List Char) (followedByNewline : Bool) : Bool :=
  let r := (line.takeWhile (fun c => c = '#')).length
  decide (1 ≤ r) && decide (r ≤ 3) &&
    (match line.drop r with
     | c :: _ => isPySpace c
     | [] => followedByNewline)

/-- Does a line match the bullet-list pattern of
calculate_structure_score: a dash, asterisk or plus at line start
followed by a whitespace character? -/
def bulletMatch (line : List Char) (followedByNewline : Bool) : Bool :=
  match line with
  | [] => false
  | c :: rest =>
    (c = '-' || c = '*' || c = '+') &&
      (match rest with
       | d :: _ => isPySpace d
       | [] => followedByNewline)

/-- Number of markdown-header lines found by calculate_structure_score. -/
def headerCount (s : List Char) : Nat :=
  lineMatchCount headerMatch (splitLines s)

/-- Number of bullet-list lines found by calculate_structure_score. -/
def bulletCount (s : List Char) : Nat :=
  lineMatchCount bulletMatch (splitLines s)

/-- The length of dropWhile is at most the length of the input. -/
theorem dropWhileLen {α : Type} (p : α → Bool) (l : List α) :
    (l.dropWhile p).length ≤ l.length := by
  induction l with
  | nil => exact Nat.le_refl _
  | cons a t ih =>
    rw [List.dropWhile_cons]
    split
    · exact Nat.le_succ_of_le ih
    · exact Nat.le_refl _

/-- Fuel-driven scanner for the data-point regex of
calculate_structure_score, counting non-overlapping matches of: a digit
run then a dot or comma and another digit run, or a digit run followed
by a percent sign, or a dollar sign followed by a digit run.  A
position where no alternative matches is skipped; a match consumes its
characters.  Every step consumes at least one character, so fuel equal
to the input length is always sufficient. -/
def numberScan : Nat → List Char → Nat
  | 0, _ => 0
  | _, [] => 0
  | fuel + 1, c :: cs =>
    if c = '$' then
      match cs with
      | [] => 0
      | d :: ds =>
        if d.isDigit then 1 + numberScan fuel (ds.dropWhile Char.isDigit)
        else numberScan fuel (d :: ds)
    else if c.isDigit then
      match cs.dropWhile Char.isDigit with
      | [] => 0
      | s :: r2 =>
        if s = '.' ∨ s = ',' then
          match r2 with
          | [] => 0
          | d :: ds =>
            if d.isDigit then 1 + numberScan fuel (ds.dropWhile Char.isDigit)
            else numberScan fuel (s :: r2)
        else if s = '%' then 1 + numberScan fuel r2
        else numberScan fuel (s :: r2)
    else numberScan fuel cs

/-- Number of numeric, percentage or currency tokens found by the
data-point regex scan of calculate_structure_score. -/
def numberCount (l : List Char) : Nat := numberScan l.length l

/-- ReportValidationModel.calculate_structure_score: tiered bonuses for
markdown headers, bullet lines and numeric tokens, capped at 1. -/
def calculate_structure_score (content : List Char) : ℚ :=
  let score : ℚ := 0
  let score : ℚ :=
    if 3 ≤ headerCount content then score + 2/5
    else if 1 ≤ headerCount content then score + 1/5
    else score
  let score : ℚ :=
    if 5 ≤ bulletCount content then score + 3/10
    else if 2 ≤ bulletCount content then score + 3/20
    else score
  let score : ℚ :=
    if 10 ≤ numberCount content then score + 3/10
    else if 5 ≤ numberCount content then score + 3/20
    else score
  min score 1

/-- The ReportValidationModel record after successful construction:
validated fields plus the derived word count and scores computed by
model_post_init. -/
structure ReportValidationModel where
  ticker : List Char
  company_name : Option (List Char)
  report_content : List Char
  report_type : List Char
  word_count : ℤ
  completeness_score : ℚ
  structure_score : ℚ
  deriving Repr, DecidableEq

/-- ReportValidationModel.validate_ticker: rejects an empty ticker or a
ticker whose raw length is outside one to ten characters, and returns
the accepted ticker upper-cased and stripped. -/
def validate_ticker (v : List Char) : Option (List Char) :=
  if v.length < 1 ∨ 10 < v.length then none
  else some (pyStrip (pyUpper v))

/-- ReportValidationModel.validate_report_type: only the two allowed
report types are accepted. -/
def validate_report_type (v : List Char) : Option (List Char) :=
  if v = "Full Analysis".toList ∨ v = "Quick Analysis".toList then some v
  else none

/-- ReportValidationModel.validate_report_content: rejects content whose
stripped length is below one hundred characters, and returns the
stripped content. -/
def validate_report_content (v : List Char) : Option (List Char) :=
  if (pyStrip v).length < 100 then none else some (pyStrip v)

/-- The word count after model_post_init: a provided non-zero word
count is kept (Python truthiness), otherwise the word count of the
stripped content is derived. -/
def effectiveWordCount (c : List Char) (word_count : Option ℤ) : ℤ :=
  match word_count with
  | some w => if w ≠ 0 then w else (wordCount c : ℤ)
  | none => (wordCount c : ℤ)

/-- Construction of a ReportValidationModel: the min_length field
constraint on the raw content, the three field validators, then
model_post_init (derive the word count when absent or zero, compute
both scores).  A validation failure (pydantic raising) is none. -/
def mk_report_validation_model (ticker : List Char)
    (company_name : Option (List Char)) (report_content : List Char)
    (report_type : List Char) (word_count : Option ℤ) :
    Option ReportValidationModel :=
  if report_content.length < 100 then none
  else
    match validate_ticker ticker, validate_report_type report_type,
        validate_report_content report_content with
    | some t, some ty, some c =>
      some { ticker := t, company_name := company_name,
             report_content := c, report_type := ty,
             word_count := effectiveWordCount c word_count,
             completeness_score :=
               calculate_completeness c (effectiveWordCount c word_count),
             structure_score := calculate_structure_score c }
    | _, _, _ => none



/-! ## Spec-side formulas for the validator claims -/

/-- Stated from the claim wording (not the code): a required section
counts as found only by case-insensitive substring match against a
markdown header or bold text. -/
def sectionFoundHeaderOrBold (content : List Char) (s : List Char) : Bool :=
  containsSub (pyLower content) ("## ".toList ++ s) ||
  containsSub (pyLower content) ("# ".toList ++ s) ||
  containsSub (pyLower content) ("**".toList ++ s ++ "**".toList)

/-- The word-count bonus of the completeness formula as the claim
states it: one tenth inside the eight-hundred to twelve-hundred band,
otherwise one twentieth from five hundred up. -/
def wcBonus (wc : ℤ) : ℚ :=
  if 800 ≤ wc ∧ wc ≤ 1200 then 1/10
  else if 500 ≤ wc then 1/20
  else 0

/-- The completeness formula exactly as the claim states it: base one
half, one eighth per section found by header or bold-text substring
match, plus the word-count bonus, capped at one. -/
def completenessClaimFormula (content : List Char) (wc : ℤ) : ℚ :=
  min (1/2 +
    ((requiredSections.filter
        (fun s => sectionFoundHeaderOrBold content s)).length : ℚ) * (1/8)
    + wcBonus wc) 1

/-- The claim formula amended as the code forces: a section is also
found when its name with all spaces removed occurs anywhere in the
lower-cased content. -/
def sectionFoundAmended (content : List Char) (s : List Char) : Bool :=
  sectionFoundHeaderOrBold content s ||
  containsSub (pyLower content) (s.filter (fun c => c ≠ ' '))

/-- The amended completeness formula: as the claim, with the
space-stripped section-name match added. -/
def completenessAmendedFormula (content : List Char) (wc : ℤ) : ℚ :=
  min (1/2 +
    ((requiredSections.filter
        (fun s => sectionFoundAmended content s)).length : ℚ) * (1/8)
    + wcBonus wc) 1

/-- The structure-score formula exactly as the claim states it: the sum
of the three tiered bonuses, capped at one. -/
def structureClaimFormula (content : List Char) : ℚ :=
  min ((if 3 ≤ headerCount content then (2 : ℚ)/5
        else if 1 ≤ headerCount content then 1/5 else 0)
     + (if 5 ≤ bulletCount content then (3 : ℚ)/10
        else if 2 ≤ bulletCount content then 3/20 else 0)
     + (if 10 ≤ numberCount content then (3 : ℚ)/10
        else if 5 ≤ numberCount content then 3/20 else 0)) 1

/-- The code predicate for a found section agrees with the amended
claim predicate. -/
theorem sectionFound_eq_amended (content s : List Char) :
    sectionFound (pyLower content) s = sectionFoundAmended content s := by
  simp only [sectionFound, sectionPatterns, sectionFoundAmended,
    sectionFoundHeaderOrBold, List.any_cons, List.any_nil, Bool.or_false,
    Bool.or_assoc]

/-- The word-count bonus folded into the staged additions of the code. -/
theorem bonus_eq (base : ℚ) (wc : ℤ) :
    (if wc ≠ 0 then
      if 800 ≤ wc ∧ wc ≤ 1200 then base + 1/10
      else if 500 ≤ wc then base + 1/20
      else base
    else base) = base + wcBonus wc := by
  unfold wcBonus
  by_cases h0 : wc ≠ 0
  · rw [if_pos h0]
    by_cases hb : 800 ≤ wc ∧ wc ≤ 1200
    · rw [if_pos hb, if_pos hb]
    · rw [if_neg hb, if_neg hb]
      by_cases hc : 500 ≤ wc
      · rw [if_pos hc, if_pos hc]
      · rw [if_neg hc, if_neg hc]
        ring
  · rw [if_neg h0]
    have hz : wc = 0 := by omega
    subst hz
    norm_num

/-- calculate_completeness agrees everywhere with the amended claim
formula. -/
theorem calculate_completeness_eq_amended (content : List Char) (wc : ℤ) :
    calculate_completeness content wc = completenessAmendedFormula content wc := by
  unfold calculate_completeness completenessAmendedFormula foundSections
  have hf : (fun s => sectionFound (pyLower content) s)
      = (fun s => sectionFoundAmended content s) := by
    funext s; exact sectionFound_eq_amended content s
  rw [hf]
  simp only [bonus_eq]

/-- Stripping never lengthens a string. -/
theorem pyStripLen (s : List Char) : (pyStrip s).length ≤ s.length := by
  unfold pyStrip
  have h1 := dropWhileLen isPySpace s
  have h2 := dropWhileLen isPySpace (s.dropWhile isPySpace).reverse
  simp only [List.length_reverse] at h1 h2 ⊢
  omega

/-! ## Claim C1 -/

/-- C1 (amended): for every constructed ReportValidationModel the
completeness score equals the claimed formula, amended so that a
section also counts as found when its space-stripped name occurs
anywhere in the content; and a report containing all four required
section headers with a word count of one thousand scores at least nine
tenths. -/
theorem c1_completeness_formula (ticker : List Char)
    (cn : Option (List Char)) (content rtype : List Char)
    (wc? : Option ℤ) (m : ReportValidationModel)
    (hm : mk_report_validation_model ticker cn content rtype wc? = some m) :
    m.completeness_score
        = completenessAmendedFormula m.report_content m.word_count
    ∧ ((∀ s ∈ requiredSections,
          containsSub (pyLower m.report_content) ("## ".toList ++ s) = true) →
        m.word_count = 1000 → 9/10 ≤ m.completeness_score) := by
  unfold mk_report_validation_model at hm
  split at hm
  · exact absurd hm (by simp)
  · split at hm
    case h_2 => exact absurd hm (by simp)
    case h_1 t ty c heq1 heq2 heq3 =>
      injection hm with hm
      subst hm
      dsimp only
      refine ⟨calculate_completeness_eq_amended _ _, ?_⟩
      intro hall hwc
      rw [hwc]
      have hfs : foundSections c = requiredSections := by
        unfold foundSections
        rw [List.filter_eq_self]
        intro s hs
        unfold sectionFound sectionPatterns
        simp only [List.any_cons, List.any_nil, Bool.or_false,
          Bool.or_eq_true]
        exact Or.inl (hall s hs)
      unfold calculate_completeness
      rw [hfs]
      have h4 : ((requiredSections.length : Nat) : ℚ) = 4 := by
        simp [requiredSections]
      simp only [h4]
      norm_num [min_def]

/-- Concrete content for the completeness counterexample: the collapsed
word executivesummary with padding; no markdown header and no bold
text anywhere. -/
def c1cexContent : List Char :=
  "executivesummary".toList ++ List.replicate 100 'z'

/-- C1 counterexample: the model constructed from c1cexContent has
completeness five eighths, while the formula of the claim (sections
found only via markdown headers or bold text) yields one half: the code
also matched the space-stripped section name. -/
theorem c1_counterexample :
    (mk_report_validation_model ("AAPL".toList) none c1cexContent
        ("Full Analysis".toList) none).map (fun m => m.completeness_score)
      = some ((5 : ℚ)/8)
    ∧ (mk_report_validation_model ("AAPL".toList) none c1cexContent
        ("Full Analysis".toList) none).map
          (fun m => (m.report_content, m.word_count))
      = some (c1cexContent, 1)
    ∧ completenessClaimFormula c1cexContent 1 = 1/2
    ∧ ((5 : ℚ)/8) ≠ 1/2 := by
  refine ⟨?_, by decide, ?_, by norm_num⟩
  · have h0 : (mk_report_validation_model ("AAPL".toList) none c1cexContent
        ("Full Analysis".toList) none).map (fun m => m.completeness_score)
        = some (calculate_completeness c1cexContent 1) := rfl
    rw [h0]
    have hlen : (foundSections c1cexContent).length = 1 := by decide
    simp only [calculate_completeness, hlen]
    norm_num [min_def]
  · have hlen0 : (requiredSections.filter
        (fun s => sectionFoundHeaderOrBold c1cexContent s)).length = 0 := by
      decide
    simp only [completenessClaimFormula, hlen0]
    norm_num [wcBonus, min_def]

/-- Concrete content containing all four required section headers. -/
def c1WitnessContent : List Char :=
  ("## executive summary\n## company overview\n" ++
   "## financial analysis\n## key takeaways\n" ++
   "padding text long enough to reach the minimum length").toList

/-- C1 witness: a concrete constructed model whose completeness equals
the amended formula and, having all four headers and word count one
thousand, scores at least nine tenths. -/
theorem c1_witness :
    ∃ m, mk_report_validation_model ("AAPL".toList) none c1WitnessContent
        ("Full Analysis".toList) (some 1000) = some m
      ∧ m.completeness_score
          = completenessAmendedFormula m.report_content m.word_count
      ∧ 9/10 ≤ m.completeness_score := by
  cases hmk : mk_report_validation_model ("AAPL".toList) none c1WitnessContent
      ("Full Analysis".toList) (some 1000) with
  | none =>
    have hs : (mk_report_validation_model ("AAPL".toList) none c1WitnessContent
        ("Full Analysis".toList) (some 1000)).isSome = true := by decide
    rw [hmk] at hs
    simp at hs
  | some m =>
    obtain ⟨h1, h2⟩ := c1_completeness_formula ("AAPL".toList) none
      c1WitnessContent ("Full Analysis".toList) (some 1000) m hmk
    have hc : m.report_content = pyStrip c1WitnessContent := by
      have h := congrArg (Option.map (fun x => x.report_content)) hmk
      have h0 : (mk_report_validation_model ("AAPL".toList) none
          c1WitnessContent ("Full Analysis".toList) (some 1000)).map
            (fun x => x.report_content)
          = some (pyStrip c1WitnessContent) := by decide
      rw [h0] at h
      simp only [Option.map_some'] at h
      exact (Option.some.inj h).symm
    have hw : m.word_count = 1000 := by
      have h := congrArg (Option.map (fun x => x.word_count)) hmk
      have h0 : (mk_report_validation_model ("AAPL".toList) none
          c1WitnessContent ("Full Analysis".toList) (some 1000)).map
            (fun x => x.word_count)
          = some (1000 : ℤ) := by decide
      rw [h0] at h
      simp only [Option.map_some'] at h
      exact (Option.some.inj h).symm
    refine ⟨m, rfl, h1, h2 ?_ hw⟩
    rw [hc]
    decide

/-! ## Claim C2 -/

/-- C2: for every report text and word count, both computed scores lie
in the unit interval. -/
theorem c2_scores_in_unit_interval (content : List Char) (wc : ℤ) :
    0 ≤ calculate_completeness content wc
    ∧ calculate_completeness content wc ≤ 1
    ∧ 0 ≤ calculate_structure_score content
    ∧ calculate_structure_score content ≤ 1 := by
  refine ⟨?_, ?_, ?_, ?_⟩
  · unfold calculate_completeness
    refine le_min ?_ (by norm_num)
    split_ifs <;> positivity
  · unfold calculate_completeness
    exact min_le_right _ _
  · unfold calculate_structure_score
    refine le_min ?_ (by norm_num)
    split_ifs <;> norm_num
  · unfold calculate_structure_score
    exact min_le_right _ _

/-! ## Claim C3 -/

/-- C3 (amended): construction rejects content of raw length below one
hundred and tickers of length outside one to ten; construction succeeds
when the STRIPPED content has at least one hundred characters (not
merely the raw content, as the claim stated), the ticker length is in
range, and the report type is valid. -/
theorem c3_construction_guard (t : List Char) (cn : Option (List Char))
    (c ty : List Char) (wc? : Option ℤ) :
    (c.length < 100 → mk_report_validation_model t cn c ty wc? = none)
    ∧ ((t.length < 1 ∨ 10 < t.length) →
        mk_report_validation_model t cn c ty wc? = none)
    ∧ (100 ≤ (pyStrip c).length → 1 ≤ t.length → t.length ≤ 10 →
        (ty = "Full Analysis".toList ∨ ty = "Quick Analysis".toList) →
        (mk_report_validation_model t cn c ty wc?).isSome = true) := by
  refine ⟨?_, ?_, ?_⟩
  · intro h
    unfold mk_report_validation_model
    rw [if_pos h]
  · intro h
    unfold mk_report_validation_model
    split
    · rfl
    · have hv : validate_ticker t = none := by
        unfold validate_ticker
        rw [if_pos h]
      rw [hv]
  · intro hlen ht1 ht2 hty
    have hraw : ¬ c.length < 100 := by
      have := pyStripLen c
      omega
    have hv1 : validate_ticker t = some (pyStrip (pyUpper t)) := by
      unfold validate_ticker
      rw [if_neg (by omega)]
    have hv2 : validate_report_type ty = some ty := by
      unfold validate_report_type
      rw [if_pos hty]
    have hv3 : validate_report_content c = some (pyStrip c) := by
      unfold validate_report_content
      rw [if_neg (by omega)]
    unfold mk_report_validation_model
    rw [if_neg hraw, hv1, hv2, hv3]
    rfl

/-- Content of raw length exactly one hundred whose stripped length is
ninety-nine. -/
def c3cexContent : List Char := List.replicate 99 'a' ++ [' ']

/-- C3 counterexample: a content of raw length one hundred with a valid
ticker and report type is nevertheless rejected, because the validator
checks the stripped length. -/
theorem c3_counterexample :
    mk_report_validation_model ("AAPL".toList) none c3cexContent
        ("Full Analysis".toList) none = none
    ∧ c3cexContent.length = 100
    ∧ ("AAPL".toList).length = 4 := by
  refine ⟨by decide, by decide, by decide⟩

/-- C3 witness: a fully valid instantiation is accepted and a short one
rejected, by the guard theorem applied at concrete inputs. -/
theorem c3_witness :
    (mk_report_validation_model ("AAPL".toList) none (List.replicate 120 'a')
        ("Full Analysis".toList) none).isSome = true
    ∧ mk_report_validation_model ("AAPL".toList) none (List.replicate 50 'a')
        ("Full Analysis".toList) none = none := by
  constructor
  · exact (c3_construction_guard ("AAPL".toList) none (List.replicate 120 'a')
      ("Full Analysis".toList) none).2.2 (by decide) (by decide) (by decide)
      (Or.inl rfl)
  · exact (c3_construction_guard ("AAPL".toList) none (List.replicate 50 'a')
      ("Full Analysis".toList) none).1 (by decide)

/-! ## Claim C4 -/

/-- C4: the structure score equals the claimed sum of tiered bonuses
capped at one, and a report with no headers, no bullet lines and no
numeric tokens scores exactly zero. -/
theorem c4_structure_formula (content : List Char) :
    calculate_structure_score content = structureClaimFormula content
    ∧ (headerCount content = 0 → bulletCount content = 0 →
        numberCount content = 0 → calculate_structure_score content = 0) := by
  constructor
  · simp only [calculate_structure_score, structureClaimFormula]
    congr 1
    split_ifs <;> ring
  · intro h1 h2 h3
    simp only [calculate_structure_score, h1, h2, h3]
    norm_num [min_def]

/-- Concrete unstructured content. -/
def c4WitnessContent : List Char :=
  "plain prose with no structure at all".toList

/-- C4 witness: the formula and the zero case evaluated at concrete
contents via the structure theorem. -/
theorem c4_witness :
    calculate_structure_score c4WitnessContent
        = structureClaimFormula c4WitnessContent
    ∧ calculate_structure_score c4WitnessContent = 0 := by
  have h := c4_structure_formula c4WitnessContent
  exact ⟨h.1, h.2 (by decide) (by decide) (by decide)⟩

/-! ## Database layer (database/db_manager.py)

The SQLite store is modelled as explicit state: one list of rows per
table plus the next autoincrement identifier per table.  Row timestamps
(the CURRENT_TIMESTAMP defaults) are supplied as an explicit now
argument to each inserting operation. -/

/-- A row of the user_queries table. -/
structure QueryRow where
  id : Nat
  ticker : List Char
  company_name : Option (List Char)
  analysis_type : List Char
  period : List Char
  status : List Char
  created_at : Int
  error_message : Option (List Char)
  deriving Repr, DecidableEq

/-- A row of the reports table. -/
structure ReportRow where
  id : Nat
  query_id : Nat
  ticker : List Char
  report_content : List Char
  word_count : Int
  generated_at : Int
  deriving Repr, DecidableEq

/-- A row of the agent_logs table. -/
structure AgentLogRow where
  id : Nat
  query_id : Nat
  agent_name : List Char
  action_summary : List Char
  status : List Char
  timestamp : Int
  deriving Repr, DecidableEq

/-- A row of the analysis_metadata table. -/
structure MetadataRow where
  id : Nat
  query_id : Nat
  key_decisions : List Char
  data_completeness : ℚ
  confidence_score : ℚ
  summary : List Char
  created_at : Int
  deriving Repr, DecidableEq

/-- The whole database state. -/
structure DBState where
  user_queries : List QueryRow
  reports : List ReportRow
  agent_logs : List AgentLogRow
  analysis_metadata : List MetadataRow
  next_query_id : Nat
  next_report_id : Nat
  next_log_id : Nat
  next_metadata_id : Nat
  deriving Repr, DecidableEq

/-- The empty database produced by _init_database. -/
def emptyDB : DBState :=
  { user_queries := [], reports := [], agent_logs := [],
    analysis_metadata := [], next_query_id := 1, next_report_id := 1,
    next_log_id := 1, next_metadata_id := 1 }

/-- DatabaseManager.create_query: inserts a pending query with the
ticker upper-cased and returns the generated identifier. -/
def create_query (db : DBState) (now : Int) (ticker : List Char)
    (company_name : Option (List Char)) (analysis_type period : List Char) :
    DBState × Nat :=
  let id := db.next_query_id
  ({ db with
      user_queries := db.user_queries ++
        [{ id := id, ticker := pyUpper ticker, company_name := company_name,
           analysis_type := analysis_type, period := period,
           status := "pending".toList, created_at := now,
           error_message := none }],
      next_query_id := id + 1 }, id)

/-- DatabaseManager.update_query_status: sets status and error message
on every row whose identifier matches. -/
def update_query_status (db : DBState) (query_id : Nat)
    (status : List Char) (error_message : Option (List Char)) : DBState :=
  { db with
      user_queries := db.user_queries.map (fun r =>
        if r.id = query_id then
          { r with status := status, error_message := error_message }
        else r) }

/-- DatabaseManager.get_query: first row with the given identifier. -/
def get_query (db : DBState) (query_id : Nat) : Option QueryRow :=
  db.user_queries.find? (fun r => r.id == query_id)

/-- DatabaseManager.save_report: derives the word count when absent,
upper-cases the ticker, inserts, and returns the generated id. -/
def save_report (db : DBState) (now : Int) (query_id : Nat)
    (ticker : List Char) (report_content : List Char)
    (word_count : Option Int) : DBState × Nat :=
  let wc : Int :=
    match word_count with
    | some w => w
    | none => (wordCount report_content : Int)
  let id := db.next_report_id
  ({ db with
      reports := db.reports ++
        [{ id := id, query_id := query_id, ticker := pyUpper ticker,
           report_content := report_content, word_count := wc,
           generated_at := now }],
      next_report_id := id + 1 }, id)

/-- DatabaseManager.get_report: first row with the given identifier. -/
def get_report (db : DBState) (report_id : Nat) : Option ReportRow :=
  db.reports.find? (fun r => r.id == report_id)

/-- Insertion into a list sorted by descending generated_at, used to
model the ORDER BY generated_at DESC of get_reports_by_ticker. -/
def insertReportDesc (r : ReportRow) : List ReportRow → List ReportRow
  | [] => [r]
  | x :: xs =>
    if x.generated_at ≥ r.generated_at then x :: insertReportDesc r xs
    else r :: x :: xs

/-- Sort reports by descending generated_at (insertion sort; SQLite
leaves the order of equal keys unspecified, this model fixes one). -/
def sortReportsDesc (l : List ReportRow) : List ReportRow :=
  l.foldr insertReportDesc []

/-- DatabaseManager.get_reports_by_ticker: rows matching the
upper-cased ticker, newest first, limited. -/
def get_reports_by_ticker (db : DBState) (ticker : List Char)
    (limit : Nat) : List ReportRow :=
  (sortReportsDesc (db.reports.filter
      (fun r => r.ticker == pyUpper ticker))).take limit

/-- DatabaseManager.log_agent_action: inserts a log row, truncating the
action summary to five hundred characters. -/
def log_agent_action (db : DBState) (now : Int) (query_id : Nat)
    (agent_name action_summary status : List Char) : DBState × Nat :=
  let id := db.next_log_id
  ({ db with
      agent_logs := db.agent_logs ++
        [{ id := id, query_id := query_id, agent_name := agent_name,
           action_summary := action_summary.take 500, status := status,
           timestamp := now }],
      next_log_id := id + 1 }, id)

/-- DatabaseManager.save_metadata: inserts a metadata row, truncating
key decisions to one thousand characters and the summary to five
hundred. -/
def save_metadata (db : DBState) (now : Int) (query_id : Nat)
    (key_decisions : List Char) (data_completeness confidence_score : ℚ)
    (summary : List Char) : DBState × Nat :=
  let id := db.next_metadata_id
  ({ db with
      analysis_metadata := db.analysis_metadata ++
        [{ id := id, query_id := query_id,
           key_decisions := key_decisions.take 1000,
           data_completeness := data_completeness,
           confidence_score := confidence_score,
           summary := summary.take 500, created_at := now }],
      next_metadata_id := id + 1 }, id)

/-- The four tables, for the deletion order of cleanup_old_data. -/
inductive TableName where
  | analysis_metadata
  | agent_logs
  | reports
  | user_queries
  deriving Repr, DecidableEq

/-- The deletion order of cleanup_old_data: the three child tables
first, the parent user_queries table last. -/
def cleanupDeleteOrder : List TableName :=
  [TableName.analysis_metadata, TableName.agent_logs,
   TableName.reports, TableName.user_queries]

/-- One DELETE ... WHERE timestamp < cutoff statement of
cleanup_old_data, returning the new state and the rowcount. -/
def deleteOlderFrom (db : DBState) (cutoff : Int) :
    TableName → DBState × Nat
  | TableName.analysis_metadata =>
    ({ db with analysis_metadata :=
        db.analysis_metadata.filter (fun r => !(r.created_at < cutoff)) },
      (db.analysis_metadata.filter (fun r => r.created_at < cutoff)).length)
  | TableName.agent_logs =>
    ({ db with agent_logs :=
        db.agent_logs.filter (fun r => !(r.timestamp < cutoff)) },
      (db.agent_logs.filter (fun r => r.timestamp < cutoff)).length)
  | TableName.reports =>
    ({ db with reports :=
        db.reports.filter (fun r => !(r.generated_at < cutoff)) },
      (db.reports.filter (fun r => r.generated_at < cutoff)).length)
  | TableName.user_queries =>
    ({ db with user_queries :=
        db.user_queries.filter (fun r => !(r.created_at < cutoff)) },
      (db.user_queries.filter (fun r => r.created_at < cutoff)).length)

/-- DatabaseManager.cleanup_old_data: the cutoff is midnight of the
current day minus the requested number of days; the four deletes run in
cleanupDeleteOrder and the rowcounts are summed. -/
def cleanup_old_data (db : DBState) (nowMidnight days : Int) :
    DBState × Nat :=
  let cutoff := nowMidnight - days
  cleanupDeleteOrder.foldl
    (fun acc t =>
      let step := deleteOlderFrom acc.1 cutoff t
      (step.1, acc.2 + step.2))
    (db, 0)

/-! ## Claim C5 -/

/-- C5: cleanup_old_data removes exactly the rows strictly older than
the cutoff (midnight minus days) from all four tables, in
child-to-parent order (user_queries last), returning the total number
of removed rows; when every row is at least as new as the cutoff,
nothing is removed. -/
theorem c5_cleanup (db : DBState) (nowMidnight days : Int) :
    (cleanup_old_data db nowMidnight days).1
      = { db with
          analysis_metadata := db.analysis_metadata.filter
            (fun r => !(r.created_at < nowMidnight - days)),
          agent_logs := db.agent_logs.filter
            (fun r => !(r.timestamp < nowMidnight - days)),
          reports := db.reports.filter
            (fun r => !(r.generated_at < nowMidnight - days)),
          user_queries := db.user_queries.filter
            (fun r => !(r.created_at < nowMidnight - days)) }
    ∧ (cleanup_old_data db nowMidnight days).2
      = (db.analysis_metadata.filter
          (fun r => r.created_at < nowMidnight - days)).length
        + (db.agent_logs.filter
            (fun r => r.timestamp < nowMidnight - days)).length
        + (db.reports.filter
            (fun r => r.generated_at < nowMidnight - days)).length
        + (db.user_queries.filter
            (fun r => r.created_at < nowMidnight - days)).length
    ∧ cleanupDeleteOrder.getLast? = some TableName.user_queries
    ∧ ((∀ r ∈ db.analysis_metadata, nowMidnight - days ≤ r.created_at) →
       (∀ r ∈ db.agent_logs, nowMidnight - days ≤ r.timestamp) →
       (∀ r ∈ db.reports, nowMidnight - days ≤ r.generated_at) →
       (∀ r ∈ db.user_queries, nowMidnight - days ≤ r.created_at) →
       (cleanup_old_data db nowMidnight days).2 = 0) := by
  have hcount : (cleanup_old_data db nowMidnight days).2
      = (db.analysis_metadata.filter
          (fun r => r.created_at < nowMidnight - days)).length
        + (db.agent_logs.filter
            (fun r => r.timestamp < nowMidnight - days)).length
        + (db.reports.filter
            (fun r => r.generated_at < nowMidnight - days)).length
        + (db.user_queries.filter
            (fun r => r.created_at < nowMidnight - days)).length := by
    simp only [cleanup_old_data, cleanupDeleteOrder, deleteOlderFrom,
      List.foldl]
    omega
  refine ⟨rfl, hcount, rfl, ?_⟩
  intro h1 h2 h3 h4
  rw [hcount]
  have e1 : db.analysis_metadata.filter
      (fun r => r.created_at < nowMidnight - days) = [] := by
    rw [List.filter_eq_nil_iff]
    intro a ha
    have := h1 a ha
    simp only [decide_eq_true_eq]
    omega
  have e2 : db.agent_logs.filter
      (fun r => r.timestamp < nowMidnight - days) = [] := by
    rw [List.filter_eq_nil_iff]
    intro a ha
    have := h2 a ha
    simp only [decide_eq_true_eq]
    omega
  have e3 : db.reports.filter
      (fun r => r.generated_at < nowMidnight - days) = [] := by
    rw [List.filter_eq_nil_iff]
    intro a ha
    have := h3 a ha
    simp only [decide_eq_true_eq]
    omega
  have e4 : db.user_queries.filter
      (fun r => r.created_at < nowMidnight - days) = [] := by
    rw [List.filter_eq_nil_iff]
    intro a ha
    have := h4 a ha
    simp only [decide_eq_true_eq]
    omega
  rw [e1, e2, e3, e4]
  rfl

/-- A small concrete database: one query and one report at time five,
one log row at time ninety-five. -/
def c5DB : DBState :=
  { user_queries :=
      [{ id := 1, ticker := "AAPL".toList, company_name := none,
         analysis_type := "Full Analysis".toList, period := "1y".toList,
         status := "completed".toList, created_at := 5,
         error_message := none }],
    reports :=
      [{ id := 1, query_id := 1, ticker := "AAPL".toList,
         report_content := "r".toList, word_count := 1,
         generated_at := 5 }],
    agent_logs :=
      [{ id := 1, query_id := 1, agent_name := "Crew".toList,
         action_summary := "s".toList, status := "success".toList,
         timestamp := 95 }],
    analysis_metadata := [],
    next_query_id := 2, next_report_id := 2, next_log_id := 2,
    next_metadata_id := 1 }

/-- C5 witness: on the concrete database with cutoff minus one hundred,
every row is newer than the cutoff and the cleanup removes nothing. -/
theorem c5_witness : (cleanup_old_data c5DB 100 200).2 = 0 :=
  (c5_cleanup c5DB 100 200).2.2.2 (by decide) (by decide) (by decide)
    (by decide)

/-! ## Claim C9 -/

/-- C9: rows written by log_agent_action carry an action summary of at
most five hundred characters, and rows written by save_metadata carry
key decisions of at most one thousand and a summary of at most five
hundred characters, whatever the input lengths; the bounds are
preserved over the whole table. -/
theorem c9_truncation (db : DBState) (now : Int) (qid : Nat)
    (agent_name action_summary status : List Char)
    (key_decisions : List Char) (dc cs : ℚ) (summary : List Char)
    (hlog : ∀ r ∈ db.agent_logs, r.action_summary.length ≤ 500)
    (hmeta : ∀ r ∈ db.analysis_metadata,
        r.key_decisions.length ≤ 1000 ∧ r.summary.length ≤ 500) :
    (∀ r ∈ (log_agent_action db now qid agent_name action_summary
        status).1.agent_logs, r.action_summary.length ≤ 500)
    ∧ (∀ r ∈ (save_metadata db now qid key_decisions dc cs
        summary).1.analysis_metadata,
        r.key_decisions.length ≤ 1000 ∧ r.summary.length ≤ 500) := by
  constructor
  · intro r hr
    simp only [log_agent_action, List.mem_append,
      List.mem_singleton] at hr
    rcases hr with hr | hr
    · exact hlog r hr
    · subst hr
      simp only [List.length_take]
      exact min_le_left _ _
  · intro r hr
    simp only [save_metadata, List.mem_append,
      List.mem_singleton] at hr
    rcases hr with hr | hr
    · exact hmeta r hr
    · subst hr
      simp only [List.length_take]
      exact ⟨min_le_left _ _, min_le_left _ _⟩

/-- C9 witness: inserting oversized strings into the empty database
keeps every stored field within its bound. -/
theorem c9_witness :
    (∀ r ∈ (log_agent_action emptyDB 0 1 ("A".toList)
        (List.replicate 700 'x') ("success".toList)).1.agent_logs,
        r.action_summary.length ≤ 500)
    ∧ (∀ r ∈ (save_metadata emptyDB 0 1 (List.replicate 1400 'y') (1/2)
        (1/2) (List.replicate 700 'z')).1.analysis_metadata,
        r.key_decisions.length ≤ 1000 ∧ r.summary.length ≤ 500) :=
  c9_truncation emptyDB 0 1 ("A".toList) (List.replicate 700 'x')
    ("success".toList) (List.replicate 1400 'y') (1/2) (1/2)
    (List.replicate 700 'z') (by decide) (by decide)

/-! ## Claim C10 -/

/-- C10: a ticker accepted by validate_ticker is returned upper-cased
then stripped; the length bound is checked on the raw input (so a
ticker longer than ten characters is rejected even when its stripped
form is short); create_query and save_report store the ticker
upper-cased. -/
theorem c10_ticker_normalization (v : List Char) (db db2 : DBState)
    (now now2 : Int) (cn : Option (List Char)) (atype period : List Char)
    (qid : Nat) (content : List Char) (wc? : Option Int) :
    ((1 ≤ v.length ∧ v.length ≤ 10) →
        validate_ticker v = some (pyStrip (pyUpper v)))
    ∧ (10 < v.length → validate_ticker v = none)
    ∧ (v.length < 1 → validate_ticker v = none)
    ∧ (create_query db now v cn atype period).1.user_queries
        = db.user_queries ++
          [{ id := db.next_query_id, ticker := pyUpper v,
             company_name := cn, analysis_type := atype, period := period,
             status := "pending".toList, created_at := now,
             error_message := none }]
    ∧ (save_report db2 now2 qid v content wc?).1.reports
        = db2.reports ++
          [{ id := db2.next_report_id, query_id := qid,
             ticker := pyUpper v, report_content := content,
             word_count := (match wc? with
               | some w => w
               | none => (wordCount content : Int)),
             generated_at := now2 }] := by
  refine ⟨?_, ?_, ?_, rfl, rfl⟩
  · intro h
    unfold validate_ticker
    rw [if_neg (by omega)]
  · intro h
    unfold validate_ticker
    rw [if_pos (Or.inr h)]
  · intro h
    unfold validate_ticker
    rw [if_pos (Or.inl h)]

/-- C10 witness: a padded lower-case ticker is accepted and normalised
to its upper-cased stripped form, while an over-long padded ticker is
rejected on its raw length. -/
theorem c10_witness :
    validate_ticker ("  aapl  ".toList) = some ("AAPL".toList)
    ∧ validate_ticker ("   AAPL    ".toList) = none := by
  constructor
  · rw [(c10_ticker_normalization ("  aapl  ".toList) emptyDB emptyDB 0 0
      none [] [] 1 [] none).1 ⟨by decide, by decide⟩]
    decide
  · exact (c10_ticker_normalization ("   AAPL    ".toList) emptyDB emptyDB
      0 0 none [] [] 1 [] none).2.1 (by decide)

/-! ## Claim C6 -/

/-- Membership is preserved by descending insertion. -/
theorem mem_insertReportDesc (r a : ReportRow) (l : List ReportRow) :
    a ∈ insertReportDesc r l ↔ a = r ∨ a ∈ l := by
  induction l with
  | nil => simp [insertReportDesc]
  | cons x xs ih =>
    unfold insertReportDesc
    split
    · simp only [List.mem_cons, ih]
      tauto
    · simp only [List.mem_cons]

/-- Descending insertion grows the length by one. -/
theorem length_insertReportDesc (r : ReportRow) (l : List ReportRow) :
    (insertReportDesc r l).length = l.length + 1 := by
  induction l with
  | nil => rfl
  | cons x xs ih =>
    unfold insertReportDesc
    split
    · simp [List.length_cons, ih]
    · simp [List.length_cons]

/-- Membership is preserved by the descending sort. -/
theorem mem_sortReportsDesc (a : ReportRow) (l : List ReportRow) :
    a ∈ sortReportsDesc l ↔ a ∈ l := by
  unfold sortReportsDesc
  induction l with
  | nil => simp
  | cons x xs ih =>
    simp only [List.foldr_cons, mem_insertReportDesc, ih, List.mem_cons]

/-- The descending sort preserves the length. -/
theorem length_sortReportsDesc (l : List ReportRow) :
    (sortReportsDesc l).length = l.length := by
  unfold sortReportsDesc
  induction l with
  | nil => rfl
  | cons x xs ih =>
    simp only [List.foldr_cons, length_insertReportDesc, ih,
      List.length_cons]

/-- The row inserted by save_report. -/
def savedReportRow (db : DBState) (now : Int) (qid : Nat)
    (ticker content : List Char) (wc? : Option Int) : ReportRow :=
  { id := db.next_report_id, query_id := qid, ticker := pyUpper ticker,
    report_content := content,
    word_count := (match wc? with
      | some w => w
      | none => (wordCount content : Int)),
    generated_at := now }

/-- C6: after save_report, get_report at the returned identifier yields
the byte-identical saved content, and get_reports_by_ticker for the
saved ticker contains a row with the byte-identical content, provided
the identifier is fresh and the matching rows fit within the limit. -/
theorem c6_report_roundtrip (db : DBState) (now : Int) (qid : Nat)
    (ticker content : List Char) (wc? : Option Int) (limit : Nat)
    (hfresh : ∀ r ∈ db.reports, r.id ≠ db.next_report_id)
    (hlim : (db.reports.filter
        (fun r => r.ticker == pyUpper ticker)).length < limit) :
    ((get_report (save_report db now qid ticker content wc?).1
        (save_report db now qid ticker content wc?).2).map
          (fun r => r.report_content) = some content)
    ∧ (∃ r ∈ get_reports_by_ticker
          (save_report db now qid ticker content wc?).1 ticker limit,
        r.report_content = content) := by
  have hrow : (save_report db now qid ticker content wc?).1.reports
      = db.reports ++ [savedReportRow db now qid ticker content wc?] := rfl
  have hid : (save_report db now qid ticker content wc?).2
      = db.next_report_id := rfl
  constructor
  · unfold get_report
    rw [hid, hrow, List.find?_append]
    have hnone : db.reports.find?
        (fun r => r.id == db.next_report_id) = none := by
      rw [List.find?_eq_none]
      intro r hr
      simpa using hfresh r hr
    rw [hnone]
    simp [savedReportRow]
  · have hfil : ((save_report db now qid ticker content wc?).1.reports.filter
        (fun r => r.ticker == pyUpper ticker))
        = db.reports.filter (fun r => r.ticker == pyUpper ticker) ++
          [savedReportRow db now qid ticker content wc?] := by
      rw [hrow, List.filter_append]
      simp [savedReportRow]
    refine ⟨savedReportRow db now qid ticker content wc?, ?_, rfl⟩
    unfold get_reports_by_ticker
    rw [hfil]
    have hlen : (sortReportsDesc
        (db.reports.filter (fun r => r.ticker == pyUpper ticker) ++
          [savedReportRow db now qid ticker content wc?])).length
        ≤ limit := by
      rw [length_sortReportsDesc, List.length_append]
      simp only [List.length_cons, List.length_nil]
      omega
    rw [List.take_of_length_le hlen, mem_sortReportsDesc]
    simp

/-- C6 witness: saving a report into the empty database and reading it
back by identifier and by ticker returns the identical content. -/
theorem c6_witness :
    ((get_report (save_report emptyDB 7 1 ("aapl".toList)
        ("## quarterly report".toList) none).1
        (save_report emptyDB 7 1 ("aapl".toList)
          ("## quarterly report".toList) none).2).map
          (fun r => r.report_content) = some ("## quarterly report".toList))
    ∧ (∃ r ∈ get_reports_by_ticker
          (save_report emptyDB 7 1 ("aapl".toList)
            ("## quarterly report".toList) none).1 ("aapl".toList) 10,
        r.report_content = "## quarterly report".toList) :=
  c6_report_roundtrip emptyDB 7 1 ("aapl".toList)
    ("## quarterly report".toList) none 10 (by decide) (by decide)

/-! ## Crew orchestration (crew/business_analyst_crew.py)

The two summary-extraction helpers operate on free text and do not
influence any claim; they are passed as explicit function parameters of
the embedding.  The result of crew.kickoff (or the exception it
raises, as a message string) is the kickoff argument. -/

/-- BusinessAnalystCrew._validate_and_store_report: validate through
the pydantic model; on success store report and metadata, on a
validation error still store the raw report best-effort; always return
the input content. -/
def validate_and_store_report (db : DBState) (enable_db : Bool)
    (now : Int) (query_id : Option Nat) (ticker : List Char)
    (company_name : Option (List Char)) (report_content : List Char)
    (report_type : List Char)
    (extract_summary extract_key_decisions : List Char → List Char) :
    DBState × List Char :=
  match mk_report_validation_model ticker company_name report_content
      report_type none with
  | some m =>
    let summary := extract_summary report_content
    let key_decisions := extract_key_decisions report_content
    let data_completeness := m.completeness_score
    let confidence_score :=
      (m.completeness_score + m.structure_score) / 2
    (match enable_db, query_id with
     | true, some q =>
       let db1 := (save_report db now q ticker report_content
         (some m.word_count)).1
       ((save_metadata db1 now q key_decisions data_completeness
         confidence_score summary).1, report_content)
     | _, _ => (db, report_content))
  | none =>
    (match enable_db, query_id with
     | true, some q =>
       ((save_report db now q ticker report_content none).1,
        report_content)
     | _, _ => (db, report_content))

/-- BusinessAnalystCrew.analyze_company: create the query record and
start log, run the crew; on success log the five agent actions,
validate and store, mark completed; on an exception mark the query
failed with the exception string, log the failure, and re-raise. -/
def analyze_company (db : DBState) (enable_db : Bool) (now : Int)
    (ticker : List Char) (company_name : Option (List Char))
    (period : List Char) (kickoff : Except (List Char) (List Char))
    (extract_summary extract_key_decisions : List Char → List Char) :
    DBState × Except (List Char) (List Char) :=
  let company := company_name.getD ticker
  let init :=
    if enable_db then
      let cq := create_query db now ticker (some company)
        ("Full Analysis".toList) period
      let lg := log_agent_action cq.1 now cq.2 ("Crew".toList)
        ("Started full analysis for ".toList ++ ticker)
        ("success".toList)
      (lg.1, some cq.2)
    else (db, (none : Option Nat))
  match kickoff with
  | Except.ok result =>
    let db2 :=
      match enable_db, init.2 with
      | true, some q =>
        let l1 := log_agent_action init.1 now q
          ("Stock Data Agent".toList)
          ("Fetched stock data for ".toList ++ ticker)
          ("success".toList)
        let l2 := log_agent_action l1.1 now q
          ("Web Search Agent".toList)
          ("Searched for competitors and news".toList)
          ("success".toList)
        let l3 := log_agent_action l2.1 now q
          ("Financial Analyst".toList)
          ("Analyzed financial data".toList) ("success".toList)
        let l4 := log_agent_action l3.1 now q
          ("Competitor Analyst".toList)
          ("Analyzed competitive landscape".toList)
          ("success".toList)
        let l5 := log_agent_action l4.1 now q
          ("Report Writer".toList)
          ("Generated final report".toList) ("success".toList)
        l5.1
      | _, _ => init.1
    let vs := validate_and_store_report db2 enable_db now init.2 ticker
      (some company) result ("Full Analysis".toList) extract_summary
      extract_key_decisions
    let db3 :=
      match enable_db, init.2 with
      | true, some q =>
        update_query_status vs.1 q ("completed".toList) none
      | _, _ => vs.1
    (db3, Except.ok vs.2)
  | Except.error e =>
    let db2 :=
      match enable_db, init.2 with
      | true, some q =>
        let du := update_query_status init.1 q ("failed".toList) (some e)
        (log_agent_action du now q ("Crew".toList)
          ("Analysis failed: ".toList ++ e.take 200)
          ("error".toList)).1
      | _, _ => init.1
    (db2, Except.error e)

/-- BusinessAnalystCrew.quick_analysis: as analyze_company with the
Quick Analysis type, a six-month period, the ticker as company name,
no stored company name, and slightly different log lines. -/
def quick_analysis (db : DBState) (enable_db : Bool) (now : Int)
    (ticker : List Char) (kickoff : Except (List Char) (List Char))
    (extract_summary extract_key_decisions : List Char → List Char) :
    DBState × Except (List Char) (List Char) :=
  let init :=
    if enable_db then
      let cq := create_query db now ticker none
        ("Quick Analysis".toList) ("6mo".toList)
      let lg := log_agent_action cq.1 now cq.2 ("Crew".toList)
        ("Started quick analysis for ".toList ++ ticker)
        ("success".toList)
      (lg.1, some cq.2)
    else (db, (none : Option Nat))
  match kickoff with
  | Except.ok result =>
    let db2 :=
      match enable_db, init.2 with
      | true, some q =>
        let l1 := log_agent_action init.1 now q
          ("Stock Data Agent".toList)
          ("Fetched stock data for ".toList ++ ticker)
          ("success".toList)
        let l2 := log_agent_action l1.1 now q
          ("Web Search Agent".toList)
          ("Searched for competitors".toList) ("success".toList)
        let l3 := log_agent_action l2.1 now q
          ("Financial Analyst".toList)
          ("Analyzed financial data".toList) ("success".toList)
        let l4 := log_agent_action l3.1 now q
          ("Competitor Analyst".toList)
          ("Analyzed competitive landscape".toList)
          ("success".toList)
        let l5 := log_agent_action l4.1 now q
          ("Report Writer".toList)
          ("Generated final report".toList) ("success".toList)
        l5.1
      | _, _ => init.1
    let vs := validate_and_store_report db2 enable_db now init.2 ticker
      none result ("Quick Analysis".toList) extract_summary
      extract_key_decisions
    let db3 :=
      match enable_db, init.2 with
      | true, some q =>
        update_query_status vs.1 q ("completed".toList) none
      | _, _ => vs.1
    (db3, Except.ok vs.2)
  | Except.error e =>
    let db2 :=
      match enable_db, init.2 with
      | true, some q =>
        let du := update_query_status init.1 q ("failed".toList) (some e)
        (log_agent_action du now q ("Crew".toList)
          ("Analysis failed: ".toList ++ e.take 200)
          ("error".toList)).1
      | _, _ => init.1
    (db2, Except.error e)

/-! ## Claim C7 -/

/-- Finding the freshly inserted row after an UPDATE targeting its
identifier returns the updated row, when no earlier row shares the
identifier. -/
theorem find_updated_append (l : List QueryRow) (row : QueryRow)
    (st : List Char) (err : Option (List Char))
    (hfresh : ∀ q ∈ l, q.id ≠ row.id) :
    ((l ++ [row]).map (fun r =>
        if r.id = row.id then { r with status := st, error_message := err }
        else r)).find? (fun r => r.id == row.id)
      = some { row with status := st, error_message := err } := by
  induction l with
  | nil => simp
  | cons x xs ih =>
    have hx : x.id ≠ row.id := hfresh x (by simp)
    have ihx := ih (fun q hq => hfresh q (List.mem_cons_of_mem x hq))
    simp only [List.cons_append, List.map_cons, if_neg hx,
      List.find?_cons]
    have hbeq : (x.id == row.id) = false := by
      simpa using hx
    rw [hbeq]
    exact ihx

/-- C7: when the crew kickoff raises, both analyze_company and
quick_analysis set the created query row to status failed with the
exception string as error message, and re-raise the same exception. -/
theorem c7_failure_marks_query_failed (db : DBState) (now : Int)
    (ticker : List Char) (company_name : Option (List Char))
    (period : List Char) (e : List Char)
    (exS exK : List Char → List Char)
    (hfresh : ∀ q ∈ db.user_queries, q.id ≠ db.next_query_id) :
    ((analyze_company db true now ticker company_name period
        (Except.error e) exS exK).2 = Except.error e
      ∧ get_query (analyze_company db true now ticker company_name period
          (Except.error e) exS exK).1 db.next_query_id
        = some { id := db.next_query_id, ticker := pyUpper ticker,
                 company_name := some (company_name.getD ticker),
                 analysis_type := "Full Analysis".toList,
                 period := period, status := "failed".toList,
                 created_at := now, error_message := some e })
    ∧ ((quick_analysis db true now ticker (Except.error e) exS exK).2
          = Except.error e
      ∧ get_query (quick_analysis db true now ticker (Except.error e)
          exS exK).1 db.next_query_id
        = some { id := db.next_query_id, ticker := pyUpper ticker,
                 company_name := none,
                 analysis_type := "Quick Analysis".toList,
                 period := "6mo".toList, status := "failed".toList,
                 created_at := now, error_message := some e }) := by
  refine ⟨⟨rfl, ?_⟩, ⟨rfl, ?_⟩⟩
  · exact find_updated_append db.user_queries
      { id := db.next_query_id, ticker := pyUpper ticker,
        company_name := some (company_name.getD ticker),
        analysis_type := "Full Analysis".toList, period := period,
        status := "pending".toList, created_at := now,
        error_message := none }
      ("failed".toList) (some e) hfresh
  · exact find_updated_append db.user_queries
      { id := db.next_query_id, ticker := pyUpper ticker,
        company_name := none,
        analysis_type := "Quick Analysis".toList,
        period := "6mo".toList,
        status := "pending".toList, created_at := now,
        error_message := none }
      ("failed".toList) (some e) hfresh

/-- C7 witness: on the empty database, a failing kickoff is re-raised
by both entry points. -/
theorem c7_witness :
    (analyze_company emptyDB true 3 ("AAPL".toList) none ("1y".toList)
        (Except.error ("boom".toList)) id id).2
      = Except.error ("boom".toList)
    ∧ (quick_analysis emptyDB true 3 ("AAPL".toList)
        (Except.error ("boom".toList)) id id).2
      = Except.error ("boom".toList) :=
  ⟨(c7_failure_marks_query_failed emptyDB 3 ("AAPL".toList) none
      ("1y".toList) ("boom".toList) id id (by decide)).1.1,
   (c7_failure_marks_query_failed emptyDB 3 ("AAPL".toList) none
      ("1y".toList) ("boom".toList) id id (by decide)).2.1⟩

/-! ## Claim C8 -/

/-- C8: _validate_and_store_report always returns the input content
unchanged; when validation fails and the database is enabled with a
query identifier, the unvalidated report is still stored via
save_report. -/
theorem c8_store_despite_validation_failure (db : DBState)
    (enable_db : Bool) (now : Int) (qid? : Option Nat)
    (ticker : List Char) (cn : Option (List Char))
    (content rtype : List Char) (exS exK : List Char → List Char) :
    ((validate_and_store_report db enable_db now qid? ticker cn content
        rtype exS exK).2 = content)
    ∧ (∀ q, mk_report_validation_model ticker cn content rtype none = none →
        qid? = some q → enable_db = true →
        (validate_and_store_report db enable_db now qid? ticker cn
            content rtype exS exK).1.reports
          = db.reports ++ [savedReportRow db now q ticker content none]) := by
  constructor
  · unfold validate_and_store_report
    cases mk_report_validation_model ticker cn content rtype none with
    | some m => cases enable_db <;> cases qid? <;> rfl
    | none => cases enable_db <;> cases qid? <;> rfl
  · intro q hmk hq he
    subst hq
    subst he
    unfold validate_and_store_report
    rw [hmk]
    rfl

/-- C8 witness: a too-short report fails validation yet is stored, and
the input content is returned unchanged. -/
theorem c8_witness :
    ((validate_and_store_report emptyDB true 5 (some 1) ("AAPL".toList)
        none ("short".toList) ("Full Analysis".toList) id id).2
      = "short".toList)
    ∧ ((validate_and_store_report emptyDB true 5 (some 1)
        ("AAPL".toList) none ("short".toList) ("Full Analysis".toList)
        id id).1.reports
      = emptyDB.reports ++
        [savedReportRow emptyDB 5 1 ("AAPL".toList) ("short".toList)
          none]) :=
  ⟨(c8_store_despite_validation_failure emptyDB true 5 (some 1)
      ("AAPL".toList) none ("short".toList) ("Full Analysis".toList)
      id id).1,
   (c8_store_despite_validation_failure emptyDB true 5 (some 1)
      ("AAPL".toList) none ("short".toList) ("Full Analysis".toList)
      id id).2 1 (by decide) rfl rfl⟩

end BizAnalyzer
